import Mathlib

/-!
Verification development for the InsightHub alerting and forecast-evaluation
core (`utils/alert_helper.py` and `utils/forecast_helper.py`).

The pandas/numpy code is embedded shallowly:

* a data frame column of numbers becomes a Lean list of exact rationals;
* `np.inf` appearing in the `stockout_risk_days` column is a dedicated
  constructor of an auxiliary `Risk` type, and the NaN that the code later
  substitutes for it is `Option.none`;
* floating-point square roots and the normal inverse CDF (library calls into
  numpy/scipy) are abstracted as function parameters; each theorem that needs
  a fact about them (for example that the square root of zero is zero, or that
  the inverse CDF is monotone) takes that fact as a hypothesis, which the real
  library functions satisfy;
* `np.round(-, 1)` (round half to even) is modelled exactly on rationals.
-/

namespace InsightHub

/-! ## Inventory status (`AlertHelper.calculate_inventory_status`, lines 74-124) -/

/-- Value of the `stockout_risk_days` column as first computed (lines 103-110):
either a finite rational or the `np.inf` produced for rows with no average
daily sales. -/
inductive Risk where
  | val (q : ℚ)
  | inf
deriving DecidableEq

/-- Comparison `risk <= c` as pandas evaluates it on a column that may hold
`np.inf` (the infinity compares greater than every finite threshold). -/
def Risk.leRat : Risk → ℚ → Bool
  | .inf, _ => false
  | .val q, c => decide (q ≤ c)

/-- Comparison `risk >= 0`; `np.inf >= 0` is true. -/
def Risk.nonneg : Risk → Bool
  | .inf => true
  | .val q => decide (0 ≤ q)

/-- Round a rational to the nearest integer, ties going to the even integer;
this is the rounding mode of `np.round`. -/
def roundHalfEven (q : ℚ) : ℤ :=
  let f := ⌊q⌋
  if q - f < 1/2 then f
  else if 1/2 < q - f then f + 1
  else if f % 2 = 0 then f else f + 1

/-- The `.round(1)` applied to the risk column on line 122: one decimal place. -/
def roundTo1 (q : ℚ) : ℚ := (roundHalfEven (10 * q) : ℚ) / 10

/-- One row of the frame returned by `calculate_inventory_status`.
`stockout_risk_days` is `none` where the frame holds NaN (the `np.inf`
values are replaced by NaN on line 121 before rounding). -/
structure InvRow where
  product : String
  current_stock : ℚ
  avg_daily_sales : ℚ
  stockout_risk_days : Option ℚ
  is_critical : Bool
  status_label : String
deriving DecidableEq

/-- The left merge of the stock frame with the average-sales frame on
`product` (line 94), with missing averages filled with 0 (line 99). A stock
row with several matching average rows is duplicated, exactly as a pandas
merge does. -/
def mergeStockAvg (stock avg : List (String × ℚ)) : List (String × ℚ × ℚ) :=
  stock.flatMap (fun s =>
    let ms := avg.filter (fun a => a.1 == s.1)
    if ms.isEmpty then [(s.1, s.2, 0)]
    else ms.map (fun a => (s.1, s.2, a.2)))

/-- The per-row computation of lines 103-122: the `np.where` risk, the
zero-stock override, the critical flag, the status label chain, and the final
replacement of infinities by NaN followed by rounding to one decimal. -/
def invRow (critical_stock_days : ℚ) (r : String × ℚ × ℚ) : InvRow :=
  let cs := r.2.1
  let avg := r.2.2
  let risk0 : Risk := if 0 < avg then .val (cs / avg) else .inf
  let risk : Risk := if cs ≤ 0 ∧ 0 < avg then .val 0 else risk0
  let crit : Bool := risk.leRat critical_stock_days && risk.nonneg
  let label1 := if risk.leRat critical_stock_days then "Critical Low Stock" else "Good Stock"
  let label2 := if cs ≤ 0 then "Out of Stock" else label1
  let label3 := if 0 < cs ∧ avg = 0 ∧ risk = .inf then "No Sales" else label2
  let riskOut : Option ℚ :=
    match risk with
    | .inf => none
    | .val q => some (roundTo1 q)
  ⟨r.1, cs, avg, riskOut, crit, label3⟩

/-- `AlertHelper.calculate_inventory_status`: on an empty input frame the
empty, correctly shaped frame is returned (lines 89-91); otherwise the merged
rows are scored one by one. -/
def calculate_inventory_status (product_current_stock : List (String × ℚ))
    (avg_daily_sales_data : List (String × ℚ)) (critical_stock_days : ℚ) : List InvRow :=
  if product_current_stock.isEmpty || avg_daily_sales_data.isEmpty then []
  else (mergeStockAvg product_current_stock avg_daily_sales_data).map (invRow critical_stock_days)

/-- Every output row is the scoring of some merged input row. -/
theorem mem_inventory_status {stock avg : List (String × ℚ)} {c : ℚ} {row : InvRow}
    (h : row ∈ calculate_inventory_status stock avg c) :
    ∃ r ∈ mergeStockAvg stock avg, invRow c r = row := by
  unfold calculate_inventory_status at h
  split at h
  · simp at h
  · exact List.mem_map.mp h

theorem invRow_current_stock (c : ℚ) (r : String × ℚ × ℚ) :
    (invRow c r).current_stock = r.2.1 := rfl

theorem invRow_avg (c : ℚ) (r : String × ℚ × ℚ) :
    (invRow c r).avg_daily_sales = r.2.2 := rfl

theorem invRow_risk_pos (c : ℚ) (r : String × ℚ × ℚ) (havg : 0 < r.2.2) (hcs : 0 < r.2.1) :
    (invRow c r).stockout_risk_days = some (roundTo1 (r.2.1 / r.2.2)) := by
  unfold invRow
  simp only
  rw [if_pos havg, if_neg (by intro h; exact absurd hcs (not_lt.mpr h.1))]

theorem invRow_risk_zero_stock (c : ℚ) (r : String × ℚ × ℚ)
    (havg : 0 < r.2.2) (hcs : r.2.1 ≤ 0) :
    (invRow c r).stockout_risk_days = some (roundTo1 0) := by
  unfold invRow
  simp only
  rw [if_pos ⟨hcs, havg⟩]

theorem invRow_risk_no_sales (c : ℚ) (r : String × ℚ × ℚ) (havg : r.2.2 ≤ 0) :
    (invRow c r).stockout_risk_days = none := by
  unfold invRow
  simp only
  rw [if_neg (not_lt.mpr havg), if_neg (by intro h; exact absurd h.2 (not_lt.mpr havg))]

theorem invRow_crit_zero_stock (c : ℚ) (r : String × ℚ × ℚ)
    (hc : 0 < c) (havg : 0 < r.2.2) (hcs : r.2.1 ≤ 0) :
    (invRow c r).is_critical = true := by
  unfold invRow
  simp only
  rw [if_pos ⟨hcs, havg⟩]
  simp [Risk.leRat, Risk.nonneg, hc.le]

theorem roundTo1_zero : roundTo1 0 = 0 := by
  unfold roundTo1 roundHalfEven
  norm_num

/-- Claim C3, as stated, is false: the returned `stockout_risk_days` column is
rounded to one decimal place (line 122), so for current_stock 1 and average
daily sales 3 the produced value is 3/10 and not the exact quotient 1/3. -/
theorem C3_claim_counterexample :
    (calculate_inventory_status [("A", 1)] [("A", 3)] 5).map (fun r => r.stockout_risk_days)
      = [some (3/10)] ∧ (3 : ℚ)/10 ≠ 1/3 := by
  constructor
  · have hrow := invRow_risk_pos 5 ("A", 1, 3) (by norm_num) (by norm_num)
    have hmerge : calculate_inventory_status [("A", 1)] [("A", 3)] 5
        = [invRow 5 ("A", 1, 3)] := by
      simp [calculate_inventory_status, mergeStockAvg]
    rw [hmerge, List.map_singleton, hrow]
    have : roundTo1 ((1 : ℚ) / 3) = 3/10 := by
      unfold roundTo1 roundHalfEven
      norm_num
    rw [this]
  · norm_num

/-- Claim C3 amended: in every produced row, `stockout_risk_days` is the
quotient current_stock / avg_daily_sales rounded half-to-even to one decimal
place when both are positive, is 0 when avg_daily_sales is positive but
current_stock is not, and is missing (NaN, substituted for the internal
infinity) when avg_daily_sales is 0, negative or absent. -/
theorem C3_amended_risk_days (stock avg : List (String × ℚ)) (c : ℚ) (row : InvRow)
    (hrow : row ∈ calculate_inventory_status stock avg c) :
    (0 < row.avg_daily_sales → 0 < row.current_stock →
        row.stockout_risk_days = some (roundTo1 (row.current_stock / row.avg_daily_sales)))
    ∧ (0 < row.avg_daily_sales → row.current_stock ≤ 0 → row.stockout_risk_days = some 0)
    ∧ (row.avg_daily_sales ≤ 0 → row.stockout_risk_days = none) := by
  obtain ⟨r, -, hr⟩ := mem_inventory_status hrow
  subst hr
  rw [invRow_current_stock, invRow_avg]
  refine ⟨fun havg hcs => ?_, fun havg hcs => ?_, fun havg => ?_⟩
  · exact invRow_risk_pos c r havg hcs
  · rw [invRow_risk_zero_stock c r havg hcs, roundTo1_zero]
  · exact invRow_risk_no_sales c r havg

/-- Witness for the amended claim C3 at a concrete input. -/
theorem C3_amended_risk_days_witness :
    (invRow 5 ("A", 1, 3)).stockout_risk_days = some (roundTo1 (1 / 3)) := by
  have hmem : invRow 5 ("A", 1, 3) ∈ calculate_inventory_status [("A", 1)] [("A", 3)] 5 := by
    simp [calculate_inventory_status, mergeStockAvg]
  have h := (C3_amended_risk_days [("A", 1)] [("A", 3)] 5 (invRow 5 ("A", 1, 3)) hmem).1
  rw [invRow_current_stock, invRow_avg] at h
  exact h (by norm_num) (by norm_num)

/-- Claim C4: with a positive critical-days threshold, a produced row with
non-positive current stock and positive average daily sales reports zero
stockout risk days and is flagged critical (lines 110 and 113). -/
theorem C4_zero_stock_critical (stock avg : List (String × ℚ)) (c : ℚ) (hc : 0 < c)
    (row : InvRow) (hrow : row ∈ calculate_inventory_status stock avg c)
    (hcs : row.current_stock ≤ 0) (havg : 0 < row.avg_daily_sales) :
    row.stockout_risk_days = some 0 ∧ row.is_critical = true := by
  obtain ⟨r, -, hr⟩ := mem_inventory_status hrow
  subst hr
  rw [invRow_current_stock] at hcs
  rw [invRow_avg] at havg
  refine ⟨?_, invRow_crit_zero_stock c r hc havg hcs⟩
  rw [invRow_risk_zero_stock c r havg hcs, roundTo1_zero]

/-- Witness for claim C4 at a concrete input. -/
theorem C4_zero_stock_critical_witness :
    (invRow 3 ("A", 0, 2)).stockout_risk_days = some 0
      ∧ (invRow 3 ("A", 0, 2)).is_critical = true := by
  have hmem : invRow 3 ("A", 0, 2) ∈ calculate_inventory_status [("A", 0)] [("A", 2)] 3 := by
    simp [calculate_inventory_status, mergeStockAvg]
  exact C4_zero_stock_critical [("A", 0)] [("A", 2)] 3 (by norm_num)
    (invRow 3 ("A", 0, 2)) hmem (by rw [invRow_current_stock]) (by rw [invRow_avg]; norm_num)

/-- Claim C10: an empty stock frame or an empty average-sales frame short
circuits to the empty result (lines 89-91); in particular a non-empty stock
frame with an empty average-sales frame produces no rows at all. -/
theorem C10_empty_input_empty_result (stock avg : List (String × ℚ)) (c : ℚ)
    (h : stock = [] ∨ avg = []) :
    calculate_inventory_status stock avg c = [] := by
  rcases h with h | h <;> subst h <;> simp [calculate_inventory_status]

/-- Witness for claim C10: non-empty stock data with an empty sales frame. -/
theorem C10_empty_input_empty_result_witness :
    calculate_inventory_status [("A", 5)] [] 3 = [] :=
  C10_empty_input_empty_result [("A", 5)] [] 3 (Or.inr rfl)

/-! ## Sales anomalies (`AlertHelper.detect_sales_anomalies`, lines 127-157) -/

/-- One input record of the daily sales frame. -/
structure SalesPoint where
  date : ℤ
  sales : ℚ
deriving DecidableEq

/-- One row of the frame returned by `detect_sales_anomalies`.
`std_dev_sales` is `none` where the column holds NaN: windows of a single
observation (sample standard deviation undefined) and the zeros replaced by
NaN on line 148. -/
structure AnomalyRow where
  date : ℤ
  sales : ℚ
  mean_sales : ℚ
  std_dev_sales : Option ℚ
  z_score : ℚ
  is_anomaly_high : Bool
  is_anomaly_low : Bool
deriving DecidableEq

/-- The trailing rolling window of width `w` ending at index `i`
(pandas rolling with min_periods 1: shorter at the start of the series). -/
def rollingWindow (xs : List ℚ) (w i : Nat) : List ℚ :=
  (xs.take (i + 1)).drop (i + 1 - w)

/-- Mean of a list of rationals (np.mean). -/
def listMean (l : List ℚ) : ℚ := l.sum / l.length

/-- Sample variance with ddof 1, the quantity whose square root pandas
reports as the rolling standard deviation; meaningful for length at least 2. -/
def sampleVar (l : List ℚ) : ℚ :=
  (l.map (fun x => (x - listMean l) ^ 2)).sum / ((l.length : ℚ) - 1)

/-- The `std_dev_sales` value at index `i` after line 148: NaN (`none`) for a
single-observation window, and zeros replaced by NaN. The floating-point
square root is abstracted as `sqrtFn`. -/
def rollingStd (sqrtFn : ℚ → ℚ) (xs : List ℚ) (w i : Nat) : Option ℚ :=
  let win := rollingWindow xs w i
  if win.length < 2 then none
  else
    let sd := sqrtFn (sampleVar win)
    if sd = 0 then none else some sd

/-- The output row at index `i` (lines 144-155): rolling mean and standard
deviation, the z-score with NaN standard deviations mapped to z-score 0
(line 152), and the two anomaly flags (lines 154-155). -/
def anomalyRow (sqrtFn : ℚ → ℚ) (sales_data : List SalesPoint) (w : Nat) (t : ℚ)
    (i : Nat) : AnomalyRow :=
  let xs := sales_data.map (fun p => p.sales)
  let m := listMean (rollingWindow xs w i)
  let sd := rollingStd sqrtFn xs w i
  let x := xs.getD i 0
  let z : ℚ :=
    match sd with
    | none => 0
    | some s => (x - m) / s
  ⟨(sales_data.map (fun p => p.date)).getD i 0, x, m, sd, z,
    decide (t < z), decide (z < -t)⟩

/-- `AlertHelper.detect_sales_anomalies`: fewer than 2 records yield the empty
frame (line 138); otherwise each record is scored against a trailing window of
width `min 7 n` (line 143). In the source `z_score_threshold` defaults to 2.0. -/
def detect_sales_anomalies (sqrtFn : ℚ → ℚ) (sales_data : List SalesPoint)
    (z_score_threshold : ℚ) : List AnomalyRow :=
  if sales_data.length < 2 then []
  else
    let w := min 7 sales_data.length
    (List.range sales_data.length).map (anomalyRow sqrtFn sales_data w z_score_threshold)

/-- A stand-in for the floating-point square root that agrees with it on the
only argument relevant to constant series, namely 0. -/
def sqrtZero : ℚ → ℚ := fun _ => 0

/-- Every output row of the detector is the scoring of some index. -/
theorem mem_detect_sales_anomalies {sqrtFn : ℚ → ℚ} {sales_data : List SalesPoint}
    {t : ℚ} {row : AnomalyRow} (h : row ∈ detect_sales_anomalies sqrtFn sales_data t) :
    ∃ i, i < sales_data.length
      ∧ anomalyRow sqrtFn sales_data (min 7 sales_data.length) t i = row := by
  unfold detect_sales_anomalies at h
  split at h
  · simp at h
  · obtain ⟨i, hi, hrow⟩ := List.mem_map.mp h
    exact ⟨i, List.mem_range.mp hi, hrow⟩

theorem anomalyRow_std (sqrtFn : ℚ → ℚ) (sales_data : List SalesPoint) (w : Nat)
    (t : ℚ) (i : Nat) :
    (anomalyRow sqrtFn sales_data w t i).std_dev_sales
      = rollingStd sqrtFn (sales_data.map (fun p => p.sales)) w i := rfl

/-- Rows whose standard deviation is NaN get z-score 0 by line 152. -/
theorem anomalyRow_z_of_std_none (sqrtFn : ℚ → ℚ) (sales_data : List SalesPoint)
    (w : Nat) (t : ℚ) (i : Nat)
    (h : rollingStd sqrtFn (sales_data.map (fun p => p.sales)) w i = none) :
    (anomalyRow sqrtFn sales_data w t i).z_score = 0 := by
  unfold anomalyRow
  simp only [h]

theorem anomalyRow_high (sqrtFn : ℚ → ℚ) (sales_data : List SalesPoint) (w : Nat)
    (t : ℚ) (i : Nat) :
    (anomalyRow sqrtFn sales_data w t i).is_anomaly_high
      = decide (t < (anomalyRow sqrtFn sales_data w t i).z_score) := rfl

theorem anomalyRow_low (sqrtFn : ℚ → ℚ) (sales_data : List SalesPoint) (w : Nat)
    (t : ℚ) (i : Nat) :
    (anomalyRow sqrtFn sales_data w t i).is_anomaly_low
      = decide ((anomalyRow sqrtFn sales_data w t i).z_score < -t) := rfl

theorem sum_of_constant {k : ℚ} : ∀ {l : List ℚ}, (∀ x ∈ l, x = k) →
    l.sum = l.length * k
  | [], _ => by simp
  | x :: xs, h => by
    have hx := h x (List.mem_cons_self x xs)
    have hxs := sum_of_constant (fun y hy => h y (List.mem_cons_of_mem x hy))
    simp [hx, hxs]
    ring

theorem listMean_const {k : ℚ} {l : List ℚ} (hne : l ≠ []) (h : ∀ x ∈ l, x = k) :
    listMean l = k := by
  have hlen : (l.length : ℚ) ≠ 0 := by
    exact_mod_cast fun h0 => hne (List.length_eq_zero.mp h0)
  unfold listMean
  rw [sum_of_constant h, mul_comm, mul_div_assoc, div_self hlen, mul_one]

theorem sampleVar_const {k : ℚ} {l : List ℚ} (hne : l ≠ []) (h : ∀ x ∈ l, x = k) :
    sampleVar l = 0 := by
  unfold sampleVar
  have hmap : l.map (fun x => (x - listMean l) ^ 2) = l.map (fun _ => 0) := by
    refine List.map_congr_left (fun x hx => ?_)
    rw [h x hx, listMean_const hne h]
    ring
  rw [hmap]
  simp

theorem mem_rollingWindow {xs : List ℚ} {w i : Nat} {x : ℚ}
    (h : x ∈ rollingWindow xs w i) : x ∈ xs :=
  List.mem_of_mem_take (List.mem_of_mem_drop h)

/-- On a window drawn from a constant series, the post-replacement standard
deviation is always NaN: single-observation windows are NaN outright, and
longer windows have zero variance, whose square root 0 is replaced by NaN. -/
theorem rollingStd_const (sqrtFn : ℚ → ℚ) (hs : sqrtFn 0 = 0) {k : ℚ} {xs : List ℚ}
    (h : ∀ x ∈ xs, x = k) (w i : Nat) : rollingStd sqrtFn xs w i = none := by
  unfold rollingStd
  simp only
  split
  · rfl
  · rename_i hlen
    have hne : rollingWindow xs w i ≠ [] := by
      intro hnil
      rw [hnil] at hlen
      exact hlen (by norm_num)
    have hconst : ∀ x ∈ rollingWindow xs w i, x = k :=
      fun x hx => h x (mem_rollingWindow hx)
    rw [sampleVar_const hne hconst, hs, if_pos rfl]

/-- Claim C5: a record whose trailing rolling standard deviation is 0 or
undefined gets z-score 0 and is not flagged; in particular a constant series
of at least 7 points produces no anomaly flags at all. The threshold is taken
non-negative (the source defaults it to 2.0), and the abstract square root is
only required to vanish at 0, as the real one does. -/
theorem C5_zero_std_never_flagged (sqrtFn : ℚ → ℚ) (hs : sqrtFn 0 = 0)
    (sales_data : List SalesPoint) (t : ℚ) (ht : 0 ≤ t) :
    (∀ row ∈ detect_sales_anomalies sqrtFn sales_data t,
        row.std_dev_sales = none →
          row.z_score = 0 ∧ row.is_anomaly_high = false ∧ row.is_anomaly_low = false)
    ∧ (∀ k : ℚ, (∀ p ∈ sales_data, p.sales = k) → 7 ≤ sales_data.length →
        ∀ row ∈ detect_sales_anomalies sqrtFn sales_data t,
          row.is_anomaly_high = false ∧ row.is_anomaly_low = false) := by
  have hz : ∀ (w i : Nat) (row : AnomalyRow),
      anomalyRow sqrtFn sales_data w t i = row →
      rollingStd sqrtFn (sales_data.map (fun p => p.sales)) w i = none →
      row.z_score = 0 ∧ row.is_anomaly_high = false ∧ row.is_anomaly_low = false := by
    intro w i row hrow hstd
    subst hrow
    have hz0 := anomalyRow_z_of_std_none sqrtFn sales_data w t i hstd
    refine ⟨hz0, ?_, ?_⟩
    · rw [anomalyRow_high, hz0]
      exact decide_eq_false (not_lt.mpr ht)
    · rw [anomalyRow_low, hz0]
      exact decide_eq_false (not_lt.mpr (neg_nonpos.mpr ht))
  constructor
  · intro row hrow hstd
    obtain ⟨i, -, hrow⟩ := mem_detect_sales_anomalies hrow
    have hstd2 : rollingStd sqrtFn (sales_data.map (fun p => p.sales))
        (min 7 sales_data.length) i = none := by
      rw [← anomalyRow_std sqrtFn sales_data (min 7 sales_data.length) t i, hrow]
      exact hstd
    exact hz _ i row hrow hstd2
  · intro k hk hlen row hrow
    obtain ⟨i, -, hrow⟩ := mem_detect_sales_anomalies hrow
    have hconst : ∀ x ∈ sales_data.map (fun p => p.sales), x = k := by
      intro x hx
      obtain ⟨p, hp, hpx⟩ := List.mem_map.mp hx
      rw [← hpx]
      exact hk p hp
    exact (hz _ i row hrow (rollingStd_const sqrtFn hs hconst _ i)).2

/-- A constant daily sales series of 7 points, value 5 every day. -/
def constSeven : List SalesPoint :=
  [⟨0, 5⟩, ⟨1, 5⟩, ⟨2, 5⟩, ⟨3, 5⟩, ⟨4, 5⟩, ⟨5, 5⟩, ⟨6, 5⟩]

/-- The record at index 3 of the detector output on `constSeven`. -/
theorem constSeven_row3_mem :
    anomalyRow sqrtZero constSeven 7 2 3 ∈ detect_sales_anomalies sqrtZero constSeven 2 := by
  unfold detect_sales_anomalies
  rw [if_neg (by norm_num [constSeven])]
  have h3 : (3 : Nat) ∈ List.range constSeven.length := by decide
  exact List.mem_map_of_mem _ h3

/-- Witness for claim C5 at a concrete constant series. -/
theorem C5_zero_std_never_flagged_witness :
    (anomalyRow sqrtZero constSeven 7 2 3).is_anomaly_high = false
      ∧ (anomalyRow sqrtZero constSeven 7 2 3).is_anomaly_low = false :=
  (C5_zero_std_never_flagged sqrtZero rfl constSeven 2 (by norm_num)).2 5
    (by decide) (by decide) _ constSeven_row3_mem

/-- Claim C6, as stated, is false for a negative threshold: with threshold -1
on the constant series 5, 5 every record has z-score 0 and is flagged both
high (0 > -1) and low (0 < 1) at once. The stand-in square root only ever
receives the argument 0 here and agrees there with the real one. -/
theorem C6_claim_counterexample :
    detect_sales_anomalies sqrtZero [⟨0, 5⟩, ⟨1, 5⟩] (-1)
      = [⟨0, 5, 5, none, 0, true, true⟩, ⟨1, 5, 5, none, 0, true, true⟩] := by
  unfold detect_sales_anomalies anomalyRow rollingStd rollingWindow sampleVar listMean sqrtZero
  norm_num [List.range_succ]

/-- Claim C6 amended: for every series, every abstract square root and every
non-negative threshold, a record is flagged high exactly when its z-score
exceeds the threshold, flagged low exactly when its z-score is below the
negated threshold, and never both. (For negative thresholds the two flag
definitions on lines 154-155 overlap, as the counterexample shows.) -/
theorem C6_amended_flags (sqrtFn : ℚ → ℚ) (sales_data : List SalesPoint) (t : ℚ)
    (ht : 0 ≤ t) :
    ∀ row ∈ detect_sales_anomalies sqrtFn sales_data t,
      (row.is_anomaly_high = true ↔ t < row.z_score)
      ∧ (row.is_anomaly_low = true ↔ row.z_score < -t)
      ∧ ¬(row.is_anomaly_high = true ∧ row.is_anomaly_low = true) := by
  intro row hrow
  obtain ⟨i, -, hrow⟩ := mem_detect_sales_anomalies hrow
  subst hrow
  rw [anomalyRow_high, anomalyRow_low]
  refine ⟨by simp, by simp, ?_⟩
  intro ⟨h1, h2⟩
  simp only [decide_eq_true_eq] at h1 h2
  linarith

/-- Witness for the amended claim C6 at a concrete record. -/
theorem C6_amended_flags_witness :
    ((anomalyRow sqrtZero constSeven 7 2 3).is_anomaly_high = true
        ↔ 2 < (anomalyRow sqrtZero constSeven 7 2 3).z_score)
      ∧ ((anomalyRow sqrtZero constSeven 7 2 3).is_anomaly_low = true
        ↔ (anomalyRow sqrtZero constSeven 7 2 3).z_score < -2)
      ∧ ¬((anomalyRow sqrtZero constSeven 7 2 3).is_anomaly_high = true
          ∧ (anomalyRow sqrtZero constSeven 7 2 3).is_anomaly_low = true) :=
  C6_amended_flags sqrtZero constSeven 2 (by norm_num) _ constSeven_row3_mem

/-! ## Alert filtering (`AlertHelper.filter_alerts`, lines 191-247) -/

/-- A calendar date; pandas timestamps are modelled at day granularity (all
time filters of the source compare whole days). -/
structure PDate where
  year : ℤ
  month : ℤ
  day : ℤ
deriving DecidableEq

/-- Day number of a calendar date (days-from-civil algorithm over the
proleptic Gregorian calendar); pandas timestamp ordering and day arithmetic
agree with it. The divisions are floor divisions over a positive divisor. -/
def PDate.toDays (dt : PDate) : ℤ :=
  let yAdj := if dt.month ≤ 2 then dt.year - 1 else dt.year
  let era := yAdj / 400
  let yoe := yAdj - era * 400
  let mp := (dt.month + 9) % 12
  let doy := (153 * mp + 2) / 5 + dt.day - 1
  let doe := yoe * 365 + yoe / 4 - yoe / 100 + doy
  era * 146097 + doe - 719468

/-- The quarter number of a month, as pandas computes `.dt.quarter`. -/
def quarterOfMonth (m : ℤ) : ℤ := (m - 1) / 3 + 1

/-- One alert record; `message` is `none` when the field is null. -/
structure Alert where
  alert_date : PDate
  type : String
  severity : String
  status : String
  message : Option String
deriving DecidableEq

/-- The maximum `alert_date` of the input set (line 217), in chronological
order. Only evaluated on non-empty inputs; the base case is arbitrary. -/
def latestDate : List Alert → PDate
  | [] => ⟨1970, 1, 1⟩
  | a :: rest =>
      rest.foldl (fun acc b =>
        if acc.toDays < b.alert_date.toDays then b.alert_date else acc) a.alert_date

/-- The time-range predicate of lines 220-230. Daily compares calendar dates;
Weekly keeps timestamps at or after latest minus one week; Monthly, Quarterly
and Yearly compare only the month, quarter and year numbers of the date
against those of the latest date. An unrecognised value filters nothing. -/
def timeRangePred (time_range : String) (latest : PDate) (a : Alert) : Bool :=
  if time_range = "Daily" then decide (a.alert_date = latest)
  else if time_range = "Weekly" then decide (latest.toDays - 7 ≤ a.alert_date.toDays)
  else if time_range = "Monthly" then decide (a.alert_date.month = latest.month)
  else if time_range = "Quarterly" then
    decide (quarterOfMonth a.alert_date.month = quarterOfMonth latest.month)
  else if time_range = "Yearly" then decide (a.alert_date.year = latest.year)
  else true

/-- Case-insensitive containment of one character sequence in another. -/
def charsContain (needle : List Char) : List Char → Bool
  | [] => needle.isEmpty
  | c :: t => needle.isPrefixOf (c :: t) || charsContain needle t

/-- The `str.contains(search_query, case=False, na=False)` match of line 244:
a null message never matches. -/
def msgContainsCI (q : String) : Option String → Bool
  | none => false
  | some s => charsContain q.toLower.toList s.toLower.toList


/-- One optional filter stage of `filter_alerts`: each of lines 219-245 leaves
the frame unchanged when its argument is missing or its skip guard holds
(Python string truthiness and the "All" sentinel), and otherwise narrows it by
a row predicate. -/
def applyStage (l : List Alert) (o : Option String) (skip : String → Bool)
    (f : String → Alert → Bool) : List Alert :=
  match o with
  | some s => if skip s then l else l.filter (f s)
  | none => l

/-- The predicate a single stage enforces: `true` when the stage is skipped. -/
def stagePred (o : Option String) (skip : String → Bool) (f : String → Alert → Bool)
    (a : Alert) : Bool :=
  match o with
  | some s => if skip s then true else f s a
  | none => true

theorem applyStage_eq_filter (l : List Alert) (o : Option String) (skip : String → Bool)
    (f : String → Alert → Bool) :
    applyStage l o skip f = l.filter (stagePred o skip f) := by
  cases o with
  | none => exact (List.filter_true l).symm
  | some s =>
    unfold applyStage stagePred
    cases hs : skip s
    · simp only [hs, Bool.false_eq_true, if_false]
    · simp only [hs, if_true]
      exact (List.filter_true l).symm

/-- Skip guard of the `time_range` stage: only Python falsiness. -/
def skipEmpty (s : String) : Bool := s == ""

/-- Skip guard of the type, severity and status stages: falsiness or "All". -/
def skipAll (s : String) : Bool := s == "" || s == "All"

/-- `AlertHelper.filter_alerts`: an empty input returns the empty list
(lines 209-210); otherwise the five filters of lines 219-245 are applied in
sequence to the frame, and the result is returned as records in frame order. -/
def filter_alerts (all_alerts : List Alert)
    (time_range alert_type severity status search_query : Option String) : List Alert :=
  if all_alerts.isEmpty then []
  else
    let latest := latestDate all_alerts
    let l1 := applyStage all_alerts time_range skipEmpty (fun tr => timeRangePred tr latest)
    let l2 := applyStage l1 alert_type skipAll (fun ty a => a.type == ty)
    let l3 := applyStage l2 severity skipAll (fun sv a => a.severity == sv)
    let l4 := applyStage l3 status skipAll (fun sb a => a.status == sb)
    applyStage l4 search_query skipEmpty (fun q a => msgContainsCI q a.message)

/-- The conjunction of the five (possibly skipped) filter predicates,
relative to the latest date of the full input set. -/
def alertPred (time_range alert_type severity status search_query : Option String)
    (latest : PDate) (a : Alert) : Bool :=
  stagePred time_range skipEmpty (fun tr => timeRangePred tr latest) a
  && stagePred alert_type skipAll (fun ty a => a.type == ty) a
  && stagePred severity skipAll (fun sv a => a.severity == sv) a
  && stagePred status skipAll (fun sb a => a.status == sb) a
  && stagePred search_query skipEmpty (fun q a => msgContainsCI q a.message) a

/-- Claim C8: for every input and every combination of filter arguments the
output is exactly the input filtered by the conjunction of the active
predicates, hence a subsequence of the input in input order, and an empty
input yields an empty result. -/
theorem C8_filter_is_conjunction (alerts : List Alert)
    (time_range alert_type severity status search_query : Option String) :
    filter_alerts alerts time_range alert_type severity status search_query
      = alerts.filter
          (alertPred time_range alert_type severity status search_query (latestDate alerts))
    ∧ (filter_alerts alerts time_range alert_type severity status search_query).Sublist alerts
    ∧ filter_alerts [] time_range alert_type severity status search_query = [] := by
  have hempty : filter_alerts [] time_range alert_type severity status search_query = [] := by
    simp [filter_alerts]
  have hmain : filter_alerts alerts time_range alert_type severity status search_query
      = alerts.filter
          (alertPred time_range alert_type severity status search_query (latestDate alerts)) := by
    cases halerts : alerts.isEmpty
    · unfold filter_alerts
      rw [halerts]
      simp only [Bool.false_eq_true, if_false]
      rw [applyStage_eq_filter, applyStage_eq_filter, applyStage_eq_filter,
        applyStage_eq_filter, applyStage_eq_filter,
        List.filter_filter, List.filter_filter, List.filter_filter, List.filter_filter]
      refine List.filter_congr (fun a ha => ?_)
      unfold alertPred
      cases stagePred time_range skipEmpty (fun tr => timeRangePred tr (latestDate alerts)) a
        <;> cases stagePred alert_type skipAll (fun ty a => a.type == ty) a
        <;> cases stagePred severity skipAll (fun sv a => a.severity == sv) a
        <;> cases stagePred status skipAll (fun sb a => a.status == sb) a
        <;> cases stagePred search_query skipEmpty (fun q a => msgContainsCI q a.message) a
        <;> rfl
    · rw [List.isEmpty_iff.mp halerts] at *
      rw [hempty]
      simp
  exact ⟨hmain, hmain ▸ List.filter_sublist alerts, hempty⟩

/-- A time-range-only invocation reduces to one filter over the input. -/
theorem filter_alerts_time_only (alerts : List Alert) (tr : String)
    (h : skipEmpty tr = false) :
    filter_alerts alerts (some tr) none none none none
      = alerts.filter (timeRangePred tr (latestDate alerts)) := by
  cases halerts : alerts.isEmpty
  · unfold filter_alerts
    rw [halerts]
    simp only [Bool.false_eq_true, if_false, applyStage, h]
  · rw [List.isEmpty_iff.mp halerts]
    simp [filter_alerts]

/-- An alert on a given date; the other fields are fixed. -/
def alertOn (dt : PDate) : Alert := ⟨dt, "Stockout Risk", "High", "New", none⟩

/-- Claim C7, as stated, is false for the Monthly range: the code compares
only the month number (line 226), so an alert of May 2023 passes the Monthly
filter although the maximum date is in May 2024 and the alert is not in the
same calendar month as the maximum. -/
theorem C7_claim_counterexample :
    latestDate [alertOn ⟨2023, 5, 1⟩, alertOn ⟨2024, 5, 20⟩] = ⟨2024, 5, 20⟩
    ∧ filter_alerts [alertOn ⟨2023, 5, 1⟩, alertOn ⟨2024, 5, 20⟩]
        (some "Monthly") none none none none
        = [alertOn ⟨2023, 5, 1⟩, alertOn ⟨2024, 5, 20⟩]
    ∧ (alertOn ⟨2023, 5, 1⟩).alert_date.year ≠ (alertOn ⟨2024, 5, 20⟩).alert_date.year := by
  refine ⟨by decide, by decide, by decide⟩

/-- The Weekly example of the claim: alerts 10, 5, 1 and 0 days before the
maximum date. -/
def weeklyAlerts : List Alert :=
  [alertOn ⟨2024, 3, 10⟩, alertOn ⟨2024, 3, 15⟩, alertOn ⟨2024, 3, 19⟩, alertOn ⟨2024, 3, 20⟩]

/-- Claim C7 amended: all ranges are relative to the maximum alert date of
the input. Daily keeps exactly the alerts on the same calendar date as the
maximum; Weekly keeps exactly the alerts dated within 7 days before the
maximum (so of the dates D-10, D-5, D-1 and D exactly the last three
survive); Yearly keeps exactly the alerts of the same calendar year; Monthly
and Quarterly keep exactly the alerts whose month number, respectively
quarter number, equals that of the maximum date, irrespective of year. -/
theorem C7_amended_time_windows (alerts : List Alert) :
    (filter_alerts alerts (some "Daily") none none none none
        = alerts.filter (fun a => decide (a.alert_date = latestDate alerts)))
    ∧ (filter_alerts alerts (some "Weekly") none none none none
        = alerts.filter (fun a => decide ((latestDate alerts).toDays - 7 ≤ a.alert_date.toDays)))
    ∧ (filter_alerts alerts (some "Monthly") none none none none
        = alerts.filter (fun a => decide (a.alert_date.month = (latestDate alerts).month)))
    ∧ (filter_alerts alerts (some "Quarterly") none none none none
        = alerts.filter (fun a =>
            decide (quarterOfMonth a.alert_date.month = quarterOfMonth (latestDate alerts).month)))
    ∧ (filter_alerts alerts (some "Yearly") none none none none
        = alerts.filter (fun a => decide (a.alert_date.year = (latestDate alerts).year)))
    ∧ filter_alerts weeklyAlerts (some "Weekly") none none none none = weeklyAlerts.drop 1 := by
  refine ⟨?_, ?_, ?_, ?_, ?_, by decide⟩
  · rw [filter_alerts_time_only alerts "Daily" rfl]
    exact List.filter_congr (fun a ha => rfl)
  · rw [filter_alerts_time_only alerts "Weekly" rfl]
    exact List.filter_congr (fun a ha => rfl)
  · rw [filter_alerts_time_only alerts "Monthly" rfl]
    exact List.filter_congr (fun a ha => rfl)
  · rw [filter_alerts_time_only alerts "Quarterly" rfl]
    exact List.filter_congr (fun a ha => rfl)
  · rw [filter_alerts_time_only alerts "Yearly" rfl]
    exact List.filter_congr (fun a ha => rfl)

/-! ## Rolling forecast accuracy (`ForecastHelper`, lines 155-231) -/

/-- One record of the time series frame: a day number `ds` and a value `y`
(already numeric; the source coerces and fills invalid values with 0). -/
structure TsRow where
  ds : ℤ
  y : ℚ
deriving DecidableEq

/-- The `sort_values(ds)` of line 193, stable as in pandas. -/
def sortByDs (l : List TsRow) : List TsRow :=
  List.insertionSort (fun a b => a.ds ≤ b.ds) l

/-- The maximum `ds` of a training slice (line 200); `none` on an empty
slice, where pandas would produce NaT and the window would contribute
nothing. -/
def maxDs : List TsRow → Option ℤ
  | [] => none
  | r :: rs => some (rs.foldl (fun acc x => max acc x.ds) r.ds)

/-- `np.mean(np.abs(y_true - y_pred))` of line 157
(`mean_absolute_error_custom`). -/
def mean_absolute_error_custom (y_true y_pred : List ℚ) : ℚ :=
  (List.zipWith (fun a b => |a - b|) y_true y_pred).sum / y_true.length

/-- `np.mean(np.abs((y_true - y_pred) / np.maximum(y_true, 1e-8))) * 100` of
line 161 (`mean_absolute_percentage_error_custom`). -/
def mean_absolute_percentage_error_custom (y_true y_pred : List ℚ) : ℚ :=
  ((List.zipWith (fun a b => |(a - b) / max a (1 / 100000000)|) y_true y_pred).sum
      / y_true.length) * 100

/-- The (actual, predicted) pairs contributed by the walk-forward window
starting at index `i` of the sorted series (lines 198-219): train on `window`
rows, evaluate on the `horizon` calendar days after the last training day,
inner-join forecasts to actuals by exact day, and skip the window (an empty
contribution) when there are no actuals or no forecast rows. A forecast
function that would raise is modelled as returning the empty frame, which the
source skips in the same way. -/
def windowPairs (sorted : List TsRow) (f : List TsRow → Nat → List (ℤ × ℚ))
    (w h i : Nat) : List (ℚ × ℚ) :=
  let train := (sorted.drop i).take w
  match maxDs train with
  | none => []
  | some m =>
    let startD := m + 1
    let endD := startD + (h : ℤ) - 1
    let actuals := sorted.filter (fun r => decide (startD ≤ r.ds ∧ r.ds ≤ endD))
    if actuals.isEmpty then []
    else
      let fdf := f train h
      if fdf.isEmpty then []
      else actuals.flatMap (fun a => (fdf.filter (fun p => p.1 == a.ds)).map (fun p => (a.y, p.2)))

/-- All (actual, predicted) pairs pooled over every walk-forward window, in
loop order: the concatenation of the per-window contributions (the source
extends `all_actuals` and `all_forecasts` in lockstep, which is the same pair
list split into two columns). -/
def pooledPairs (df_ts : List TsRow) (f : List TsRow → Nat → List (ℤ × ℚ))
    (w h : Nat) : List (ℚ × ℚ) :=
  let sorted := sortByDs df_ts
  (List.range (sorted.length - w - h + 1)).flatMap (windowPairs sorted f w h)

/-- The number of walk-forward loop iterations: `range(len - window - horizon + 1)`
behind the insufficient-data guard of line 195. -/
def rollingWindowCount (df_ts : List TsRow) (w h : Nat) : Nat :=
  if df_ts.length < w + h then 0 else df_ts.length - w - h + 1

/-- The two error results of lines 196 and 226. -/
def insufficientDataMsg : String := "Not enough data for rolling accuracy."

def noValidForecastsMsg : String := "No valid forecasts generated for accuracy calculation."

/-- Result of `rolling_forecast_accuracy`: either the two pooled metrics or a
labelled error record (the source returns NaN metrics plus an error string;
the error string is what distinguishes the outcomes). -/
inductive AccResult where
  | ok (rolling_mae rolling_mape : ℚ)
  | err (msg : String)
deriving DecidableEq

/-- `ForecastHelper.rolling_forecast_accuracy` (lines 163-231) over an
abstract forecast function: sort the series, guard on `window + horizon`
points, pool the per-window pairs, and aggregate the pooled pairs with the
two custom metrics. In the source `window` defaults to 60 and `horizon`
to 7. -/
def rolling_forecast_accuracy (df_ts : List TsRow)
    (f : List TsRow → Nat → List (ℤ × ℚ)) (window horizon : Nat) : AccResult :=
  let sorted := sortByDs df_ts
  if sorted.length < window + horizon then .err insufficientDataMsg
  else
    let pairs := pooledPairs df_ts f window horizon
    if pairs.isEmpty then .err noValidForecastsMsg
    else
      .ok (mean_absolute_error_custom (pairs.map Prod.fst) (pairs.map Prod.snd))
        (mean_absolute_percentage_error_custom (pairs.map Prod.fst) (pairs.map Prod.snd))

/-- Mean absolute error over pooled pairs, stated as the specification words
it: the mean of the absolute errors of all pooled pairs. -/
def specPooledMAE (pairs : List (ℚ × ℚ)) : ℚ :=
  (pairs.map (fun p => |p.1 - p.2|)).sum / pairs.length

/-- Mean of abs(actual - predicted) / max(actual, 1e-8) over pooled pairs, as
a percentage, stated as the specification words it. -/
def specPooledMAPE (pairs : List (ℚ × ℚ)) : ℚ :=
  ((pairs.map (fun p => |p.1 - p.2| / max p.1 (1 / 100000000))).sum / pairs.length) * 100

theorem length_sortByDs (l : List TsRow) : (sortByDs l).length = l.length := by
  unfold sortByDs
  exact List.length_insertionSort _ _

theorem mae_pooled (P : List (ℚ × ℚ)) :
    mean_absolute_error_custom (P.map Prod.fst) (P.map Prod.snd) = specPooledMAE P := by
  unfold mean_absolute_error_custom specPooledMAE
  rw [List.zipWith_map_left, List.zipWith_map_right, List.zipWith_same, List.length_map]

theorem mape_pooled (P : List (ℚ × ℚ)) :
    mean_absolute_percentage_error_custom (P.map Prod.fst) (P.map Prod.snd)
      = specPooledMAPE P := by
  unfold mean_absolute_percentage_error_custom specPooledMAPE
  rw [List.zipWith_map_left, List.zipWith_map_right, List.zipWith_same, List.length_map]
  congr 2
  refine congrArg List.sum (List.map_congr_left (fun p hp => ?_))
  rw [abs_div, abs_of_pos (lt_of_lt_of_le (by norm_num) (le_max_right p.1 (1 / 100000000)))]

/-- Claim C1: whenever the series is long enough and at least one valid pair
is produced, the returned MAE is the mean absolute error over all pooled
(actual, predicted) pairs of every window, and the returned MAPE is the mean
of abs(actual - predicted) / max(actual, 1e-8) over the same pooled pairs,
times 100. (With no valid pairs the distinct error result of claim C2 is
returned instead.) -/
theorem C1_pooled_metrics (df_ts : List TsRow) (f : List TsRow → Nat → List (ℤ × ℚ))
    (w h : Nat) (hlen : w + h ≤ df_ts.length) (hne : pooledPairs df_ts f w h ≠ []) :
    rolling_forecast_accuracy df_ts f w h
      = .ok (specPooledMAE (pooledPairs df_ts f w h))
          (specPooledMAPE (pooledPairs df_ts f w h)) := by
  unfold rolling_forecast_accuracy
  simp only
  rw [if_neg (by rw [length_sortByDs]; omega)]
  rw [if_neg (by rw [List.isEmpty_iff]; exact hne)]
  rw [mae_pooled, mape_pooled]

/-- A three-day series and a forecast function predicting 4 for day 2; with
window 2 and horizon 1 exactly one pooled pair (3, 4) arises. -/
def seriesThree : List TsRow := [⟨0, 1⟩, ⟨1, 2⟩, ⟨2, 3⟩]

def constForecast : List TsRow → Nat → List (ℤ × ℚ) := fun _ _ => [(2, 4)]

/-- Witness for claim C1 at a concrete series and forecast function. -/
theorem C1_pooled_metrics_witness :
    rolling_forecast_accuracy seriesThree constForecast 2 1
      = .ok (specPooledMAE (pooledPairs seriesThree constForecast 2 1))
          (specPooledMAPE (pooledPairs seriesThree constForecast 2 1)) :=
  C1_pooled_metrics seriesThree constForecast 2 1 (by decide) (by decide)

/-- The insufficient-data error occurs exactly on short input. -/
theorem insufficient_iff (df_ts : List TsRow) (f : List TsRow → Nat → List (ℤ × ℚ))
    (w h : Nat) :
    rolling_forecast_accuracy df_ts f w h = .err insufficientDataMsg
      ↔ df_ts.length < w + h := by
  unfold rolling_forecast_accuracy
  simp only
  by_cases hc : (sortByDs df_ts).length < w + h
  · rw [if_pos hc, length_sortByDs] at *
    simp [hc]
  · rw [if_neg hc, length_sortByDs] at *
    apply iff_of_false ?_ hc
    split
    · intro hres
      injection hres with hmsg
      exact absurd hmsg (by decide)
    · intro hres
      exact AccResult.noConfusion hres

/-- Claim C2 amended: the walk-forward harness never raises; it returns the
insufficient-data error exactly when the series has fewer than
window + horizon points; with window 60 and horizon 7 a 67-point series
(exactly window + horizon, not 70 as the claim put it) executes exactly one
walk-forward window while a 66-point series gets the insufficient-data error;
and with enough points but no pooled pair it returns the distinct
no-valid-forecasts error. -/
theorem C2_amended_guards (df_ts : List TsRow) (f : List TsRow → Nat → List (ℤ × ℚ))
    (w h : Nat) :
    (rolling_forecast_accuracy df_ts f w h = .err insufficientDataMsg
        ↔ df_ts.length < w + h)
    ∧ (df_ts.length = 67 → rollingWindowCount df_ts 60 7 = 1)
    ∧ (df_ts.length = 66 → rolling_forecast_accuracy df_ts f 60 7 = .err insufficientDataMsg)
    ∧ (w + h ≤ df_ts.length → pooledPairs df_ts f w h = [] →
        rolling_forecast_accuracy df_ts f w h = .err noValidForecastsMsg)
    ∧ insufficientDataMsg ≠ noValidForecastsMsg := by
  refine ⟨insufficient_iff df_ts f w h, ?_, ?_, ?_, by decide⟩
  · intro h67
    simp [rollingWindowCount, h67]
  · intro h66
    exact (insufficient_iff df_ts f 60 7).mpr (by omega)
  · intro hlen hpairs
    unfold rolling_forecast_accuracy
    simp only
    rw [if_neg (by rw [length_sortByDs]; omega)]
    rw [if_pos (List.isEmpty_iff.mpr hpairs)]

/-- Claim C2, as stated, is false on its 70-point example: 70 is not
window + horizon for window 60 and horizon 7 (that is 67), and on a 70-point
series the walk-forward loop runs 70 - 60 - 7 + 1 = 4 windows, not 1. -/
theorem C2_claim_counterexample :
    ((List.range 70).map (fun i => TsRow.mk (i : ℤ) 0)).length = 70
    ∧ rollingWindowCount ((List.range 70).map (fun i => TsRow.mk (i : ℤ) 0)) 60 7 = 4
    ∧ (4 : Nat) ≠ 1 := by
  refine ⟨by decide, by decide, by decide⟩

/-- A 67-point and a 66-point series of zeros, and the forecast function that
always fails (returns the empty frame). -/
def series67 : List TsRow := (List.range 67).map (fun i => TsRow.mk (i : ℤ) 0)

def series66 : List TsRow := (List.range 66).map (fun i => TsRow.mk (i : ℤ) 0)

def emptyForecast : List TsRow → Nat → List (ℤ × ℚ) := fun _ _ => []

set_option maxRecDepth 20000 in
/-- Witness for the amended claim C2 at concrete series. -/
theorem C2_amended_guards_witness :
    rollingWindowCount series67 60 7 = 1
    ∧ rolling_forecast_accuracy series66 emptyForecast 60 7 = .err insufficientDataMsg
    ∧ rolling_forecast_accuracy series67 emptyForecast 60 7 = .err noValidForecastsMsg :=
  ⟨(C2_amended_guards series67 emptyForecast 60 7).2.1 (by decide),
   (C2_amended_guards series66 emptyForecast 60 7).2.2.1 (by decide),
   (C2_amended_guards series67 emptyForecast 60 7).2.2.2.1 (by decide) (by decide)⟩

/-! ## Inventory planning (`ForecastHelper`, lines 235-257) -/

/-- `ForecastHelper.calculate_safety_stock` (lines 235-246) with the scipy
standard-normal inverse CDF `norm.ppf` and the square root abstracted as
function parameters `ppf` and `sqrtFn`: invalid inputs yield 0, valid ones
`max 0 (ppf(service_level) * std * sqrt(lead_time))`. The first argument
`avg_daily_sales` is accepted and ignored exactly as in the source. -/
def calculate_safety_stock (ppf sqrtFn : ℚ → ℚ)
    (avg_daily_sales std_daily_sales lead_time service_level : ℚ) : ℚ :=
  if std_daily_sales ≤ 0 ∨ lead_time ≤ 0 ∨ service_level ≤ 0 ∨ 1 ≤ service_level then 0
  else
    let z_score := ppf service_level
    let std_dev_lead_time := std_daily_sales * sqrtFn lead_time
    max 0 (z_score * std_dev_lead_time)

/-- `ForecastHelper.calculate_reorder_point` (lines 248-257): negative inputs
yield 0, otherwise `max 0 (avg * lead_time + safety_stock)`. -/
def calculate_reorder_point (avg_daily_sales lead_time safety_stock : ℚ) : ℚ :=
  if avg_daily_sales < 0 ∨ lead_time < 0 then 0
  else max 0 (avg_daily_sales * lead_time + safety_stock)

/-- Claim C9: for any inverse CDF that is monotone on (0, 1) (as the real
standard-normal inverse CDF is) and any square root that is non-negative on
positive arguments (as the real one is), with positive standard deviation and
lead time the composite reorder point is non-decreasing in the service level
over the open unit interval. -/
theorem C9_reorder_monotone_in_level (ppf sqrtFn : ℚ → ℚ)
    (hppf : ∀ a b : ℚ, 0 < a → a ≤ b → b < 1 → ppf a ≤ ppf b)
    (hsqrt : ∀ x : ℚ, 0 < x → 0 ≤ sqrtFn x)
    (avg std lead l₁ l₂ : ℚ) (hstd : 0 < std) (hlead : 0 < lead)
    (h₁ : 0 < l₁) (h₁₂ : l₁ ≤ l₂) (h₂ : l₂ < 1) :
    calculate_reorder_point avg lead (calculate_safety_stock ppf sqrtFn avg std lead l₁)
      ≤ calculate_reorder_point avg lead (calculate_safety_stock ppf sqrtFn avg std lead l₂) := by
  have hvalid : ∀ l : ℚ, 0 < l → l < 1 →
      calculate_safety_stock ppf sqrtFn avg std lead l
        = max 0 (ppf l * (std * sqrtFn lead)) := by
    intro l hl0 hl1
    unfold calculate_safety_stock
    rw [if_neg]
    push_neg
    exact ⟨hstd, hlead, hl0, hl1⟩
  have hss : calculate_safety_stock ppf sqrtFn avg std lead l₁
      ≤ calculate_safety_stock ppf sqrtFn avg std lead l₂ := by
    rw [hvalid l₁ h₁ (lt_of_le_of_lt h₁₂ h₂), hvalid l₂ (lt_of_lt_of_le h₁ h₁₂) h₂]
    exact max_le_max le_rfl
      (mul_le_mul_of_nonneg_right (hppf l₁ l₂ h₁ h₁₂ h₂)
        (mul_nonneg hstd.le (hsqrt lead hlead)))
  unfold calculate_reorder_point
  split
  · exact le_rfl
  · exact max_le_max le_rfl (add_le_add_left hss _)

/-- Witness for claim C9: the identity maps satisfy the hypotheses made of
the inverse CDF and the square root. -/
theorem C9_reorder_monotone_in_level_witness :
    calculate_reorder_point 1 1 (calculate_safety_stock id id 1 1 1 (1/4))
      ≤ calculate_reorder_point 1 1 (calculate_safety_stock id id 1 1 1 (1/2)) :=
  C9_reorder_monotone_in_level id id (fun a b _ hab _ => hab) (fun x hx => hx.le)
    1 1 1 (1/4) (1/2) (by norm_num) (by norm_num) (by norm_num) (by norm_num) (by norm_num)
